import Mathlib

/-!
# A verification of the go-satellite parsing and coordinate-transform core

This file gives a shallow embedding, in Lean 4, of the TLE parser, the
day-of-year conversion, the gravity-model table and the coordinate-transform
routines of the `satellite` Go package (files `helpers.go` and the
gravity-constant file), and proves or refutes the specified properties.

Modelling conventions:
* Go `float64` values are modelled as exact rationals (`ℚ`) in the parsing
  and calendar code, whose arithmetic there is exact on the represented data,
  and as real numbers (`ℝ`) in the trigonometric coordinate code.
* Go's multiple return values `(value, err)` are modelled as pairs with an
  `Option String` (`none` = `nil` error), and fallible numeric conversion as
  `Except String`.
* A Go runtime panic (out-of-range slice index) is modelled as `none`.
* TLE lines are ASCII, where Go byte indexing and character indexing coincide.
-/

namespace satellite

/-! ## String primitives (Go `strings`/`strconv` behaviour used by the parser) -/

/-- Go slice expression `s[a:b]` on an ASCII string. -/
def slice (s : String) (a b : ℕ) : String :=
  ((s.data.drop a).take (b - a)).asString

/-- Whitespace recognised by Go's `strings.TrimSpace` (ASCII subset). -/
def isGoSpace (c : Char) : Bool :=
  c == ' ' || c == '\t' || c == '\n' || c == '\x0b' || c == '\x0c' || c == '\r'

/-- Go `strings.TrimSpace` on ASCII data. -/
def trimSpace (s : String) : String :=
  (((s.data.dropWhile isGoSpace).reverse.dropWhile isGoSpace).reverse).asString

/-- Go `strings.Replace(s, " ", "", n)`: deletes the first `n` spaces and
keeps every later character (including later spaces) unchanged. -/
def removeSpaces : List Char → ℕ → List Char
  | [], _ => []
  | c :: cs, 0 => c :: cs
  | c :: cs, n + 1 => if c = ' ' then removeSpaces cs n else c :: removeSpaces cs (n + 1)

/-- Go `strings.Replace(s, " ", "", 2)`, the form used throughout `ParseTLE`. -/
def replace2 (s : String) : String := (removeSpaces s.data 2).asString

/-- Numeric value of a decimal digit, or `none`. -/
def digVal (c : Char) : Option ℕ :=
  if '0' ≤ c ∧ c ≤ '9' then some (c.toNat - '0'.toNat) else none

/-- Splits a maximal run of leading decimal digits from the rest of the input. -/
def splitDigits : List Char → List ℕ × List Char
  | [] => ([], [])
  | c :: cs =>
    match digVal c with
    | some d => let p := splitDigits cs; (d :: p.1, p.2)
    | none => ([], c :: cs)

/-- The natural number denoted by a list of digits (most significant first). -/
def digitsVal (ds : List ℕ) : ℕ := ds.foldl (fun a d => 10 * a + d) 0

/-- Consumes an optional leading sign, returning `1` or `-1` and the rest. -/
def takeSign : List Char → ℤ × List Char
  | '+' :: cs => (1, cs)
  | '-' :: cs => (-1, cs)
  | cs => (1, cs)

/-- Equality of modelled Go results is decidable componentwise. -/
instance instDecEqExcept {ε α : Type} [DecidableEq ε] [DecidableEq α] :
    DecidableEq (Except ε α) := fun a b =>
  match a, b with
  | Except.error x, Except.error y =>
    if h : x = y then isTrue (by rw [h]) else isFalse (by simp [h])
  | Except.error _, Except.ok _ => isFalse (by simp)
  | Except.ok _, Except.error _ => isFalse (by simp)
  | Except.ok x, Except.ok y =>
    if h : x = y then isTrue (by rw [h]) else isFalse (by simp [h])

/-- The error text produced by Go's `strconv.ParseInt` on malformed input. -/
def intErrMsg (s : String) : String :=
  "strconv.ParseInt: parsing \"" ++ s ++ "\": invalid syntax"

/-- The error text produced by Go's `strconv.ParseFloat` on malformed input. -/
def floatErrMsg (s : String) : String :=
  "strconv.ParseFloat: parsing \"" ++ s ++ "\": invalid syntax"

/-- Modelled from the Go standard library's `strconv.ParseInt(s, 10, 0)`:
an optional sign followed by a nonempty run of decimal digits spanning the
whole string.  The 64-bit range check is omitted: every call site in this
repository parses a field of at most five digits, which cannot overflow. -/
def goParseInt (s : String) : Except String ℤ :=
  let p := takeSign s.data
  let q := splitDigits p.2
  if q.1.isEmpty ∨ ¬ q.2.isEmpty then Except.error (intErrMsg s)
  else Except.ok (p.1 * (digitsVal q.1 : ℤ))

/-- Exponent application for `goParseFloat`.  The mantissa is carried as the
exact fraction `mnum / mden`; the remainder of the input after the mantissa
must be empty or a nonempty signed decimal exponent, which scales the
fraction by the corresponding power of ten. -/
def applyExp (s : String) (sgn mnum : ℤ) (mden : ℕ) : List Char → Except String ℚ
  | [] => Except.ok (mkRat (sgn * mnum) mden)
  | c :: r =>
    if c = 'e' ∨ c = 'E' then
      let p := takeSign r
      let q := splitDigits p.2
      if q.1.isEmpty ∨ ¬ q.2.isEmpty then Except.error (floatErrMsg s)
      else if p.1 = 1 then Except.ok (mkRat (sgn * mnum * 10 ^ digitsVal q.1) mden)
      else Except.ok (mkRat (sgn * mnum) (mden * 10 ^ digitsVal q.1))
    else Except.error (floatErrMsg s)

/-- Modelled from the Go standard library's `strconv.ParseFloat(s, 64)` on
decimal input: optional sign, digits with an optional fractional part (at
least one digit overall), and an optional signed decimal exponent.  The
special forms (`Inf`/`NaN`, hex mantissas) do not occur in TLE data and are
rejected here; the value is the exact rational denoted by the decimal
literal. -/
def goParseFloat (s : String) : Except String ℚ :=
  let p := takeSign s.data
  let q := splitDigits p.2
  match q.2 with
  | '.' :: r2 =>
    let w := splitDigits r2
    if q.1.isEmpty ∧ w.1.isEmpty then Except.error (floatErrMsg s)
    else applyExp s p.1
      ((digitsVal q.1 : ℤ) * 10 ^ w.1.length + (digitsVal w.1 : ℤ)) (10 ^ w.1.length) w.2
  | r2 =>
    if q.1.isEmpty then Except.error (floatErrMsg s)
    else applyExp s p.1 (digitsVal q.1 : ℤ) 1 r2

/-! ## The repository's numeric wrappers (`helpers.go`) -/

/-- Parses a string into a float value (`helpers.go` `parseFloat`): every
space is first replaced by `'0'`, then the result is given to
`strconv.ParseFloat`. -/
def parseFloat (strIn : String) : Except String ℚ :=
  goParseFloat ((strIn.data.map (fun c => if c = ' ' then '0' else c)).asString)

/-- Parses a string into an int value (`helpers.go` `parseInt`). -/
def parseInt (strIn : String) : Except String ℤ :=
  goParseInt strIn

/-! ## Gravity models -/

/-- Holds variables that are dependent upon selected gravity model
(the `GravConst` struct of the gravity-constant source file). -/
structure GravConst where
  mu : ℝ
  radiusearthkm : ℝ
  xke : ℝ
  tumin : ℝ
  j2 : ℝ
  j3 : ℝ
  j4 : ℝ
  j3oj2 : ℝ
  f : ℝ

/-- The zero value of `GravConst`: what Go's zero-initialised named return
holds when `getGravConst` takes its `default` branch. -/
def zeroGrav : GravConst := ⟨0, 0, 0, 0, 0, 0, 0, 0, 0⟩

/-- Returns a GravConst with the information of the requested model
(`getGravConst`); the second component models the returned `error`. -/
noncomputable def getGravConst (name : String) : GravConst × Option String :=
  if name = "wgs72old" then
    let mu : ℝ := 398600.79964
    let radiusearthkm : ℝ := 6378.135
    let xke : ℝ := 0.0743669161
    let j2 : ℝ := 0.001082616
    let j3 : ℝ := -0.00000253881
    ({ mu := mu, radiusearthkm := radiusearthkm, xke := xke, tumin := 1.0 / xke,
       j2 := j2, j3 := j3, j4 := -0.00000165597, j3oj2 := j3 / j2,
       f := 1 / 298.26 }, none)
  else if name = "wgs72" then
    let mu : ℝ := 398600.8
    let radiusearthkm : ℝ := 6378.135
    let xke : ℝ := 60.0 / Real.sqrt (radiusearthkm * radiusearthkm * radiusearthkm / mu)
    let j2 : ℝ := 0.001082616
    let j3 : ℝ := -0.00000253881
    ({ mu := mu, radiusearthkm := radiusearthkm, xke := xke, tumin := 1.0 / xke,
       j2 := j2, j3 := j3, j4 := -0.00000165597, j3oj2 := j3 / j2,
       f := 1 / 298.26 }, none)
  else if name = "wgs84" then
    let mu : ℝ := 398600.5
    let radiusearthkm : ℝ := 6378.137
    let xke : ℝ := 60.0 / Real.sqrt (radiusearthkm * radiusearthkm * radiusearthkm / mu)
    let j2 : ℝ := 0.00108262998905
    let j3 : ℝ := -0.00000253215306
    ({ mu := mu, radiusearthkm := radiusearthkm, xke := xke, tumin := 1.0 / xke,
       j2 := j2, j3 := j3, j4 := -0.00000161098761, j3oj2 := j3 / j2,
       f := 1 / 298.257223563 }, none)
  else (zeroGrav, some (name ++ " is not a valid gravity model"))

/-! ## The parsed satellite record -/

/-- Modelled from the spec: the parsed satellite record (`OrbitalElements`,
spec §3).  The Go `Satellite` struct itself is declared in the propagator
source, which is outside this parsing/transform core; the fields here are
exactly the ones `ParseTLE` assigns — the raw line text, the gravity-model
bundle, the catalogue number and the numeric TLE fields (the propagator's
internal working fields are not part of this model). -/
structure Satellite where
  Line1 : String
  Line2 : String
  Error : ℤ
  Whichconst : GravConst
  satnum : ℤ
  epochyr : ℤ
  epochdays : ℚ
  ndot : ℚ
  nddot : ℚ
  bstar : ℚ
  inclo : ℚ
  nodeo : ℚ
  ecco : ℚ
  argpo : ℚ
  mo : ℚ
  no : ℚ

/-- Go's zero value of the `Satellite` record. -/
def emptySat : Satellite :=
  { Line1 := "", Line2 := "", Error := 0, Whichconst := zeroGrav, satnum := 0,
    epochyr := 0, epochdays := 0, ndot := 0, nddot := 0, bstar := 0, inclo := 0,
    nodeo := 0, ecco := 0, argpo := 0, mo := 0, no := 0 }

/-- Parses a two line element dataset into a Satellite struct
(`helpers.go` `ParseTLE`).  The second component models the returned
`error`; on an early error return the record holds exactly the fields
assigned so far, all later fields still being Go's zero value. -/
noncomputable def ParseTLE (line1 line2 gravconst : String) :
    Satellite × Option String :=
  if line1.length ≠ 69 then
    (emptySat, some ("Line1 length should be 69 but was " ++ toString line1.length))
  else if line2.length ≠ 69 then
    (emptySat, some ("Line2 length should be 69 but was " ++ toString line2.length))
  else
    let sat0 := { emptySat with Line1 := line1, Line2 := line2, Error := 0 }
    match getGravConst gravconst with
    | (gc, some e) =>
      ({ sat0 with Whichconst := gc }, some ("Error on getting gravconst: " ++ e))
    | (gc, none) =>
      let sat1 := { sat0 with Whichconst := gc }
      match parseInt (trimSpace (slice line1 2 7)) with
      | Except.error e => (sat1, some ("Error on parsing line1[2:7]: " ++ e))
      | Except.ok v0 =>
      let sat2 := { sat1 with satnum := v0 }
      match parseInt (slice line1 18 20) with
      | Except.error e => (sat2, some ("Error on parsing line1[18:20]: " ++ e))
      | Except.ok v1 =>
      let sat3 := { sat2 with epochyr := v1 }
      match parseFloat (slice line1 20 32) with
      | Except.error e => (sat3, some ("Error on parsing line1[20:32]: " ++ e))
      | Except.ok v2 =>
      let sat4 := { sat3 with epochdays := v2 }
      match parseFloat (replace2 (slice line1 33 43)) with
      | Except.error e => (sat4, some ("Error on parsing line1[33:43]: " ++ e))
      | Except.ok v3 =>
      let sat5 := { sat4 with ndot := v3 }
      match parseFloat (replace2 (slice line1 44 45 ++ "." ++ slice line1 45 50
          ++ "e" ++ slice line1 50 52)) with
      | Except.error e => (sat5, some ("Error on parsing line1[44:52]: " ++ e))
      | Except.ok v4 =>
      let sat6 := { sat5 with nddot := v4 }
      match parseFloat (replace2 (slice line1 53 54 ++ "." ++ slice line1 54 59
          ++ "e" ++ slice line1 59 61)) with
      | Except.error e => (sat6, some ("Error on parsing line1[53:61]: " ++ e))
      | Except.ok v5 =>
      let sat7 := { sat6 with bstar := v5 }
      match parseFloat (replace2 (slice line2 8 16)) with
      | Except.error e => (sat7, some ("Error on parsing line2[8:16]: " ++ e))
      | Except.ok v6 =>
      let sat8 := { sat7 with inclo := v6 }
      match parseFloat (replace2 (slice line2 17 25)) with
      | Except.error e => (sat8, some ("Error on parsing line2[17:25]: " ++ e))
      | Except.ok v7 =>
      let sat9 := { sat8 with nodeo := v7 }
      match parseFloat ("." ++ slice line2 26 33) with
      | Except.error e => (sat9, some ("Error on parsing line2[26:33]: " ++ e))
      | Except.ok v8 =>
      let sat10 := { sat9 with ecco := v8 }
      match parseFloat (replace2 (slice line2 34 42)) with
      | Except.error e => (sat10, some ("Error on parsing line2[34:42]: " ++ e))
      | Except.ok v9 =>
      let sat11 := { sat10 with argpo := v9 }
      match parseFloat (replace2 (slice line2 43 51)) with
      | Except.error e => (sat11, some ("Error on parsing line2[43:51]: " ++ e))
      | Except.ok v10 =>
      let sat12 := { sat11 with mo := v10 }
      match parseFloat (replace2 (slice line2 52 63)) with
      | Except.error e => (sat12, some ("Error on parsing line2[52:63]: " ++ e))
      | Except.ok v11 =>
      ({ sat12 with no := v11 }, none)

/-- The epoch-year resolution performed by `NewSatFromTLE`
(`helpers.go` lines 153–158): the parsed two-digit year is pivoted at 57. -/
def resolveEpochYear (epochyr : ℤ) : ℤ :=
  if epochyr < 57 then epochyr + 2000 else epochyr + 1900

/-! ## Day-of-year conversion (`days2mdhms`) -/

/-- The month-accumulation loop of `days2mdhms`.  `i` is the Go loop
variable (starting at 1) and `fuel` is `22 - i`, so running out of fuel is
exactly the loop guard `i < 22` turning false.  Go evaluates
`lmonth[int(i-1)]` before the guard `i < 22`, so each turn first performs
the table access; an out-of-range access is a runtime panic, modelled as
`none`. -/
def monthLoop (lm : List ℚ) (dayofyr : ℚ) : ℕ → ℕ → ℚ → Option (ℕ × ℚ)
  | 0, i, inttemp =>
    match lm.get? (i - 1) with
    | none => none
    | some _ => some (i, inttemp)
  | fuel + 1, i, inttemp =>
    match lm.get? (i - 1) with
    | none => none
    | some v =>
      if dayofyr > inttemp + v ∧ i < 22 then
        monthLoop lm dayofyr fuel (i + 1) (inttemp + v)
      else some (i, inttemp)

/-- Month lengths used by `days2mdhms` (leap table when `year%4 == 0`). -/
def lmonthTable (leap : Bool) : List ℚ :=
  if leap then [31, 29, 31, 30, 31, 30, 31, 31, 30, 31, 30, 31]
  else [31, 28, 31, 30, 31, 30, 31, 31, 30, 31, 30, 31]

/-- Converts the day of the year to month, day, hour, minute and second
(`days2mdhms`).  `none` models a runtime panic from an out-of-range
month-table access. -/
def days2mdhms (year : ℤ) (epochDays : ℚ) : Option (ℚ × ℚ × ℚ × ℚ × ℚ) :=
  let lmonth := lmonthTable (year % 4 = 0)
  let dayofyr : ℚ := (⌊epochDays⌋ : ℤ)
  match monthLoop lmonth dayofyr 21 1 0 with
  | none => none
  | some p =>
    let mon : ℚ := (p.1 : ℕ)
    let day := dayofyr - p.2
    let temp := (epochDays - dayofyr) * 24
    let hr : ℚ := (⌊temp⌋ : ℤ)
    let temp2 := (temp - hr) * 60
    let min : ℚ := (⌊temp2⌋ : ℤ)
    let sec := (temp2 - min) * 60
    some (mon, day, hr, min, sec)

/-! ## Real-valued coordinate code (`helpers.go`)

Here Go `float64` arithmetic is idealised as exact real arithmetic.
Comparisons of real numbers are classical. -/

open scoped Classical

/-- Twice pi (`helpers.go` `TWOPI`). -/
noncomputable def TWOPI : ℝ := Real.pi * 2.0

/-- Truncation toward zero: the integer part produced by Go's `math.Trunc`
and `math.Modf`. -/
noncomputable def truncR (x : ℝ) : ℝ := if 0 ≤ x then (⌊x⌋ : ℤ) else (⌈x⌉ : ℤ)

/-- Go's `math.Mod`: the truncated remainder, taking the dividend's sign. -/
noncomputable def gomod (x y : ℝ) : ℝ := x - y * truncR (x / y)

/-- The fractional part returned by Go's `math.Modf`. -/
noncomputable def modfFrac (x : ℝ) : ℝ := x - truncR x

/-- Holds latitude and Longitude in either degrees or radians. -/
structure LatLong where
  Latitude : ℝ
  Longitude : ℝ

/-- Holds latitude, Longitude and altitude in km. -/
structure LatLongAlt where
  LatLong : LatLong
  AltitudeKm : ℝ

/-- Holds X, Y, Z position. -/
@[ext] structure Vector3 where
  X : ℝ
  Y : ℝ
  Z : ℝ

/-- Holds an azimuth, elevation and range. -/
structure LookAngles where
  Az : ℝ
  El : ℝ
  Rg : ℝ

/-- Convert LatLong in radians to LatLong in degrees (`LatLongDeg`); the
second component models the returned `error`.  Go computes the longitude
before the latitude bounds check, so the error return carries the wrapped
longitude and a zero latitude. -/
noncomputable def LatLongDeg (rad : LatLong) : LatLong × Option String :=
  let lon0 := gomod (rad.Longitude / Real.pi * 180) 360
  let lon := if lon0 > 180 then 360 - lon0 else if lon0 < -180 then 360 + lon0 else lon0
  if rad.Latitude < -Real.pi / 2 ∨ rad.Latitude > Real.pi / 2 then
    ({ Latitude := 0, Longitude := lon }, some "Latitude not within bounds -pi/2 to +pi/2")
  else
    ({ Latitude := rad.Latitude / Real.pi * 180, Longitude := lon }, none)

/-- Calculate GMST from Julian date (`ThetaG_JD`). -/
noncomputable def ThetaG_JD (jday : ℝ) : ℝ :=
  let UT := modfFrac (jday + 0.5)
  let jd := jday - UT
  let TU := (jd - 2451545.0) / 36525.0
  let GMST0 := 24110.54841 + TU * (8640184.812866 + TU * (0.093104 - TU * 6.2e-6))
  let GMST := gomod (GMST0 + 86400.0 * 1.00273790934 * UT) 86400.0
  2 * Real.pi * GMST / 86400.0

/-- Convert latitude, longitude and altitude into equivalent Earth Centered
Inertial coordinates (`LLAToECI`). -/
noncomputable def LLAToECI (obsCoords : LatLongAlt) (jday : ℝ) (gravConst : GravConst) :
    Vector3 :=
  let theta := gomod (ThetaG_JD jday + obsCoords.LatLong.Longitude) TWOPI
  let latSin := Real.sin obsCoords.LatLong.Latitude
  let latCos := Real.cos obsCoords.LatLong.Latitude
  let c := 1 / Real.sqrt (1 + gravConst.f * (gravConst.f - 2) * latSin * latSin)
  let sq := c * (1 - gravConst.f) * (1 - gravConst.f)
  let achcp := (gravConst.radiusearthkm * c + obsCoords.AltitudeKm) * latCos
  { X := achcp * Real.cos theta
    Y := achcp * Real.sin theta
    Z := (gravConst.radiusearthkm * sq + obsCoords.AltitudeKm) * latSin }

/-- Convert Earth Centered Inertial coordinates into Earth Centered Earth
Fixed coordinates (`ECIToECEF`). -/
noncomputable def ECIToECEF (eciCoords : Vector3) (gmst : ℝ) : Vector3 :=
  { X := eciCoords.X * Real.cos gmst + eciCoords.Y * Real.sin gmst
    Y := eciCoords.X * -Real.sin gmst + eciCoords.Y * Real.cos gmst
    Z := eciCoords.Z }

/-- Calculate look angles for given satellite position and observer position
(`ECIToLookAngles`). -/
noncomputable def ECIToLookAngles (eciSat : Vector3) (obsCoords : LatLongAlt)
    (jday : ℝ) (gravConst : GravConst) : LookAngles :=
  let theta := gomod (ThetaG_JD jday + obsCoords.LatLong.Longitude) (2 * Real.pi)
  let obsPos := LLAToECI obsCoords jday gravConst
  let rx := eciSat.X - obsPos.X
  let ry := eciSat.Y - obsPos.Y
  let rz := eciSat.Z - obsPos.Z
  let latSin := Real.sin obsCoords.LatLong.Latitude
  let latCos := Real.cos obsCoords.LatLong.Latitude
  let thetaSin := Real.sin theta
  let thetaCos := Real.cos theta
  let topS := latSin * thetaCos * rx + latSin * thetaSin * ry - latCos * rz
  let topE := -thetaSin * rx + thetaCos * ry
  let topZ := latCos * thetaCos * rx + latCos * thetaSin * ry + latSin * rz
  let az0 := Real.arctan (-topE / topS)
  let az1 := if topS > 0 then az0 + Real.pi else az0
  let az := if az1 < 0 then az1 + 2 * Real.pi else az1
  let rg := Real.sqrt (rx * rx + ry * ry + rz * rz)
  { Az := az, El := Real.arcsin (topZ / rg), Rg := rg }

/-! ## Definitions following the spec's words (for refinement claims) -/

/-- Modelled from the spec: the azimuth as §4.4 describes it — `atan(−East/South)`,
then `+π` exactly when the South component is positive, then `+2π` exactly when
the result is still negative, in that conditional order. -/
noncomputable def azimuthSpec (topS topE : ℝ) : ℝ :=
  let az0 := Real.arctan (-topE / topS)
  let az1 := if topS > 0 then az0 + Real.pi else az0
  if az1 < 0 then az1 + 2 * Real.pi else az1

/-- Modelled from the spec: the first mean-motion derivative as §4.2 words it —
the float value of line-1 columns `[33,43)` with all embedded spaces deleted
(removed, not replaced with zero). -/
def ndotSpec (line1 : String) : Except String ℚ :=
  goParseFloat (((slice line1 33 43).data.filter (fun c => c != ' ')).asString)

/-! ## Theorems -/

/-- C8: `NewSatFromTLE` resolves a parsed two-digit epoch year `y` to the
full year `y + 2000` when `y < 57` and to `y + 1900` otherwise; in
particular the year digits 56 and 57 map to 2056 and 1957 respectively. -/
theorem resolveEpochYear_pivot :
    (∀ y : ℤ, (y < 57 → resolveEpochYear y = y + 2000)
      ∧ (57 ≤ y → resolveEpochYear y = y + 1900))
    ∧ resolveEpochYear 56 = 2056 ∧ resolveEpochYear 57 = 1957 := by
  refine ⟨fun y => ⟨fun h => ?_, fun h => ?_⟩, by decide, by decide⟩
  · simp [resolveEpochYear, h]
  · simp [resolveEpochYear, not_lt.mpr h]

/-- Witness for C8: the theorem applied at the boundary year digits 56. -/
theorem resolveEpochYear_pivot_witness : resolveEpochYear 56 = 56 + 2000 :=
  (resolveEpochYear_pivot.1 56).1 (by decide)

/-- C7: `getGravConst` succeeds exactly for the names `"wgs72old"`,
`"wgs72"` and `"wgs84"`; every other name yields an error that names the
offending string, and the returned bundle is then the all-zero record. -/
theorem getGravConst_closed_set (name : String) :
    ((getGravConst name).2 = none ↔
      name = "wgs72old" ∨ name = "wgs72" ∨ name = "wgs84")
    ∧ (¬(name = "wgs72old" ∨ name = "wgs72" ∨ name = "wgs84") →
        (getGravConst name).2 = some (name ++ " is not a valid gravity model")
        ∧ (getGravConst name).1 = zeroGrav) := by
  by_cases h1 : name = "wgs72old"
  · simp [getGravConst, h1]
  · by_cases h2 : name = "wgs72"
    · simp [getGravConst, h1, h2]
    · by_cases h3 : name = "wgs84"
      · simp [getGravConst, h1, h2, h3]
      · simp [getGravConst, h1, h2, h3]

/-- Witness for C7: the theorem applied at the rejected name `"nonsense"`. -/
theorem getGravConst_closed_set_witness :
    (getGravConst "nonsense").2 = some ("nonsense" ++ " is not a valid gravity model")
    ∧ (getGravConst "nonsense").1 = zeroGrav :=
  (getGravConst_closed_set "nonsense").2 (by simp)

/-- C10: `getGravConst "wgs72old"` sets `xke` to the literal `0.0743669161`
while the `"wgs72"` and `"wgs84"` variants derive `xke` as
`60/√(radiusearthkm³/mu)`; in all three variants `tumin = 1/xke` and
`j3oj2 = j3/j2`. -/
theorem getGravConst_xke_variants :
    (getGravConst "wgs72old").1.xke = 0.0743669161
    ∧ (getGravConst "wgs72").1.xke
      = 60.0 / Real.sqrt ((getGravConst "wgs72").1.radiusearthkm
          * (getGravConst "wgs72").1.radiusearthkm
          * (getGravConst "wgs72").1.radiusearthkm / (getGravConst "wgs72").1.mu)
    ∧ (getGravConst "wgs84").1.xke
      = 60.0 / Real.sqrt ((getGravConst "wgs84").1.radiusearthkm
          * (getGravConst "wgs84").1.radiusearthkm
          * (getGravConst "wgs84").1.radiusearthkm / (getGravConst "wgs84").1.mu)
    ∧ (getGravConst "wgs72old").1.tumin = 1.0 / (getGravConst "wgs72old").1.xke
    ∧ (getGravConst "wgs72").1.tumin = 1.0 / (getGravConst "wgs72").1.xke
    ∧ (getGravConst "wgs84").1.tumin = 1.0 / (getGravConst "wgs84").1.xke
    ∧ (getGravConst "wgs72old").1.j3oj2
      = (getGravConst "wgs72old").1.j3 / (getGravConst "wgs72old").1.j2
    ∧ (getGravConst "wgs72").1.j3oj2
      = (getGravConst "wgs72").1.j3 / (getGravConst "wgs72").1.j2
    ∧ (getGravConst "wgs84").1.j3oj2
      = (getGravConst "wgs84").1.j3 / (getGravConst "wgs84").1.j2 :=
  ⟨rfl, rfl, rfl, rfl, rfl, rfl, rfl, rfl, rfl⟩

/-- C9: applying `ECIToECEF` with sidereal angle `gmst` and then again with
`-gmst` recovers the original vector exactly (hence within any floating-point
tolerance), and each application leaves the Z component unchanged. -/
theorem ECIToECEF_inverse (v : Vector3) (gmst : ℝ) :
    ECIToECEF (ECIToECEF v gmst) (-gmst) = v ∧ (ECIToECEF v gmst).Z = v.Z := by
  refine ⟨?_, rfl⟩
  obtain ⟨x, y, z⟩ := v
  simp only [ECIToECEF, Real.cos_neg, Real.sin_neg, Vector3.mk.injEq]
  refine ⟨?_, ?_, trivial⟩
  · linear_combination x * Real.sin_sq_add_cos_sq gmst
  · linear_combination y * Real.sin_sq_add_cos_sq gmst

/-- C4: for every satellite ECI position, observer position and Julian date,
`ECIToLookAngles` derives the azimuth as `atan(-topE/topS)`, then adds `π`
exactly when `topS > 0`, then adds `2π` exactly when the azimuth is still
negative — in that conditional order — and computes the range as the
magnitude of the range vector and the elevation as `asin(topZ/range)`. -/
theorem ECIToLookAngles_azimuth_formula (eciSat : Vector3) (obsCoords : LatLongAlt)
    (jday : ℝ) (gravConst : GravConst) :
    ECIToLookAngles eciSat obsCoords jday gravConst =
      (let theta := gomod (ThetaG_JD jday + obsCoords.LatLong.Longitude) (2 * Real.pi)
       let obsPos := LLAToECI obsCoords jday gravConst
       let rx := eciSat.X - obsPos.X
       let ry := eciSat.Y - obsPos.Y
       let rz := eciSat.Z - obsPos.Z
       let latSin := Real.sin obsCoords.LatLong.Latitude
       let latCos := Real.cos obsCoords.LatLong.Latitude
       let thetaSin := Real.sin theta
       let thetaCos := Real.cos theta
       let topS := latSin * thetaCos * rx + latSin * thetaSin * ry - latCos * rz
       let topE := -thetaSin * rx + thetaCos * ry
       let topZ := latCos * thetaCos * rx + latCos * thetaSin * ry + latSin * rz
       let rg := Real.sqrt (rx * rx + ry * ry + rz * rz)
       { Az := azimuthSpec topS topE, El := Real.arcsin (topZ / rg), Rg := rg }) := rfl

/-- C6: `LatLongDeg` returns a domain error if and only if the input
latitude lies outside `[-π/2, π/2]` (the boundary values are accepted); an
out-of-range latitude is reported, never silently clamped (the returned
latitude is Go's zero value, untouched), and an in-range latitude is
converted to degrees as `latitude·180/π`. -/
theorem LatLongDeg_latitude_domain (rad : LatLong) :
    ((LatLongDeg rad).2 = none ↔
      -Real.pi / 2 ≤ rad.Latitude ∧ rad.Latitude ≤ Real.pi / 2)
    ∧ ((rad.Latitude < -Real.pi / 2 ∨ Real.pi / 2 < rad.Latitude) →
        (LatLongDeg rad).2 = some "Latitude not within bounds -pi/2 to +pi/2"
        ∧ (LatLongDeg rad).1.Latitude = 0)
    ∧ (-Real.pi / 2 ≤ rad.Latitude → rad.Latitude ≤ Real.pi / 2 →
        (LatLongDeg rad).1.Latitude = rad.Latitude * 180 / Real.pi) := by
  by_cases h : rad.Latitude < -Real.pi / 2 ∨ rad.Latitude > Real.pi / 2
  · have hnot : ¬(-Real.pi / 2 ≤ rad.Latitude ∧ rad.Latitude ≤ Real.pi / 2) := by
      rcases h with h | h
      · exact fun hc => absurd hc.1 (not_le.mpr h)
      · exact fun hc => absurd hc.2 (not_le.mpr h)
    refine ⟨by simp [LatLongDeg, h, hnot], fun _ => ?_, fun h1 h2 => absurd ⟨h1, h2⟩ hnot⟩
    constructor <;> simp [LatLongDeg, h]
  · have hr : -Real.pi / 2 ≤ rad.Latitude ∧ rad.Latitude ≤ Real.pi / 2 := by
      push_neg at h
      exact h
    refine ⟨by simp [LatLongDeg, h, hr.1, hr.2], fun hc => absurd hc h, fun h1 h2 => ?_⟩
    simp only [LatLongDeg, if_neg h]
    ring

/-- Witness for C6: the theorem applied at the in-range input
`⟨0, 0⟩`, discharging both bounds hypotheses. -/
theorem LatLongDeg_latitude_domain_witness :
    (LatLongDeg ⟨0, 0⟩).1.Latitude = (0 : ℝ) * 180 / Real.pi :=
  (LatLongDeg_latitude_domain ⟨0, 0⟩).2.2
    (by show -Real.pi / 2 ≤ (0:ℝ); linarith [Real.pi_pos])
    (by show (0:ℝ) ≤ Real.pi / 2; linarith [Real.pi_pos])

/-- C1 (code evaluation): on the in-range latitude 0 and the longitude
`10π/9` radians (exactly 200°), `LatLongDeg` succeeds but returns the
longitude `160`, which is not congruent to 200 modulo 360: the positive
branch of the wrap computes `360 - lon` (a mirror) instead of `lon - 360`. -/
theorem LatLongDeg_positive_wrap_mirror :
    (LatLongDeg ⟨0, 10 * Real.pi / 9⟩).2 = none
    ∧ 10 * Real.pi / 9 / Real.pi * 180 = 200
    ∧ (LatLongDeg ⟨0, 10 * Real.pi / 9⟩).1.Longitude = 160
    ∧ (¬ ∃ k : ℤ, (200 : ℝ) - 160 = 360 * k)
    ∧ (LatLongDeg ⟨0, 3 * Real.pi⟩).1.Longitude = 180 := by
  have hpi := Real.pi_pos
  have hcond : ¬((0:ℝ) < -Real.pi / 2 ∨ (0:ℝ) > Real.pi / 2) := by
    push_neg
    constructor <;> linarith
  have h200 : 10 * Real.pi / 9 / Real.pi * 180 = 200 := by
    field_simp
    ring
  have htr : truncR (200 / 360 : ℝ) = 0 := by
    unfold truncR
    rw [if_pos (by norm_num : (0:ℝ) ≤ 200 / 360)]
    norm_num [Int.floor_eq_zero_iff, Set.mem_Ico]
  have hmod : gomod 200 360 = 200 := by
    unfold gomod
    rw [htr]
    ring
  have heval : LatLongDeg ⟨0, 10 * Real.pi / 9⟩
      = ({ Latitude := 0 / Real.pi * 180, Longitude := 160 }, none) := by
    unfold LatLongDeg
    dsimp only
    rw [h200, hmod]
    rw [if_pos (by norm_num : (200:ℝ) > 180), if_neg hcond]
    norm_num
  have h540 : 3 * Real.pi / Real.pi * 180 = 540 := by
    field_simp
    ring
  have htr2 : truncR (540 / 360 : ℝ) = 1 := by
    unfold truncR
    rw [if_pos (by norm_num : (0:ℝ) ≤ 540 / 360)]
    have : ⌊(540 / 360 : ℝ)⌋ = 1 := by
      apply Int.floor_eq_iff.mpr
      norm_num
    rw [this]
    norm_num
  have hmod2 : gomod 540 360 = 180 := by
    unfold gomod
    rw [htr2]
    ring
  have heval2 : (LatLongDeg ⟨0, 3 * Real.pi⟩).1.Longitude = 180 := by
    unfold LatLongDeg
    dsimp only
    rw [h540, hmod2]
    rw [if_neg (by norm_num : ¬(180:ℝ) > 180), if_neg (by norm_num : ¬(180:ℝ) < -180),
      if_neg hcond]
  refine ⟨by rw [heval], h200, by rw [heval], ?_, heval2⟩
  rintro ⟨k, hk⟩
  have h1 : (360:ℝ) * k = 40 := by linarith
  have h2 : (0:ℝ) < (k:ℝ) := by nlinarith
  have h3 : (k:ℝ) < 1 := by nlinarith
  have h4 : (0:ℤ) < k := by exact_mod_cast h2
  have h5 : k < 1 := by exact_mod_cast h3
  omega

/-- Helper for C3: whenever the month lengths still to come (from index `k`)
cover `dayofyr`, the month loop exits normally, with no out-of-range table
access, for any fuel. -/
theorem monthLoop_isSome (lm : List ℚ) (dayofyr : ℚ) :
    ∀ (fuel k : ℕ) (inttemp : ℚ), k < lm.length →
      dayofyr ≤ inttemp + (lm.drop k).sum →
      (monthLoop lm dayofyr fuel (k + 1) inttemp).isSome = true := by
  intro fuel
  induction fuel with
  | zero =>
    intro k inttemp hk _
    have hv : lm[k]? = some lm[k] := List.getElem?_eq_getElem hk
    simp [monthLoop, hv]
  | succ fuel ih =>
    intro k inttemp hk hsum
    have hv : lm[k]? = some lm[k] := List.getElem?_eq_getElem hk
    have hdrop : lm.drop k = lm[k] :: lm.drop (k + 1) := List.drop_eq_getElem_cons hk
    rw [hdrop, List.sum_cons] at hsum
    simp only [monthLoop, Nat.add_sub_cancel, List.get?_eq_getElem?, hv]
    by_cases hc : dayofyr > inttemp + lm[k] ∧ k + 1 < 22
    · rw [if_pos hc]
      by_cases hk1 : k + 1 < lm.length
      · exact ih (k + 1) (inttemp + lm[k]) hk1 (by linarith)
      · exfalso
        have hnil : lm.drop (k + 1) = [] := List.drop_eq_nil_of_le (by omega)
        rw [hnil] at hsum
        simp at hsum
        linarith [hc.1]
    · rw [if_neg hc]
      simp

/-- C3 (amended): for every year and every `epochDays` whose floor does not
exceed the year's number of days (366 when `year % 4 = 0`, else 365),
`days2mdhms` terminates and returns without a runtime failure: the month
loop stays within the 22-iteration cap and every month-table access is in
bounds. -/
theorem days2mdhms_total_inrange (year : ℤ) (epochDays : ℚ)
    (h : (⌊epochDays⌋ : ℤ) ≤ if year % 4 = 0 then 366 else 365) :
    (days2mdhms year epochDays).isSome = true := by
  have hloop :
      (monthLoop (lmonthTable (year % 4 = 0)) ((⌊epochDays⌋ : ℤ) : ℚ) 21 1 0).isSome
        = true := by
    by_cases hy : year % 4 = 0
    · have hd : decide (year % 4 = 0) = true := by simp [hy]
      rw [hd]
      apply monthLoop_isSome _ _ 21 0 0
      · simp [lmonthTable]
      · have h366 : (lmonthTable true).sum = (366 : ℚ) := by norm_num [lmonthTable]
        rw [List.drop_zero, h366]
        rw [if_pos hy] at h
        have hc : ((⌊epochDays⌋ : ℤ) : ℚ) ≤ ((366 : ℤ) : ℚ) := by exact_mod_cast h
        push_cast at hc ⊢
        linarith
    · have hd : decide (year % 4 = 0) = false := by simp [hy]
      rw [hd]
      apply monthLoop_isSome _ _ 21 0 0
      · simp [lmonthTable]
      · have h365 : (lmonthTable false).sum = (365 : ℚ) := by norm_num [lmonthTable]
        rw [List.drop_zero, h365]
        rw [if_neg hy] at h
        have hc : ((⌊epochDays⌋ : ℤ) : ℚ) ≤ ((365 : ℤ) : ℚ) := by exact_mod_cast h
        push_cast at hc ⊢
        linarith
  unfold days2mdhms
  obtain ⟨p, hp⟩ := Option.isSome_iff_exists.mp hloop
  simp only [hp, Option.isSome_some]

/-- Counterexample for C3 as stated: at `year = 2001`, `epochDays = 400`
(the claim quantifies over every `epochDays`), the month loop's guard
`i < 22` does not stop the table access `lmonth[int(i-1)]` at `i = 13`,
which is out of range for the 12-entry table: a runtime panic. -/
theorem days2mdhms_overflow_panics : days2mdhms 2001 400 = none := by
  norm_num [days2mdhms, monthLoop, lmonthTable]

/-- Witness for C3's amended theorem at `year = 2001`, `epochDays = 250`. -/
theorem days2mdhms_total_inrange_witness :
    (days2mdhms 2001 250).isSome = true :=
  days2mdhms_total_inrange 2001 250 (by norm_num)

/-! ## The twelve fixed-column fields of `ParseTLE`, in source order -/

/-- Field parse `i` of `ParseTLE` (integer fields are injected into `ℚ`). -/
def fieldSrc (l1 l2 : String) (i : Fin 12) : Except String ℚ :=
  match i.val with
  | 0 => (parseInt (trimSpace (slice l1 2 7))).map (fun n : ℤ => (n : ℚ))
  | 1 => (parseInt (slice l1 18 20)).map (fun n : ℤ => (n : ℚ))
  | 2 => parseFloat (slice l1 20 32)
  | 3 => parseFloat (replace2 (slice l1 33 43))
  | 4 => parseFloat (replace2 (slice l1 44 45 ++ "." ++ slice l1 45 50 ++ "e" ++ slice l1 50 52))
  | 5 => parseFloat (replace2 (slice l1 53 54 ++ "." ++ slice l1 54 59 ++ "e" ++ slice l1 59 61))
  | 6 => parseFloat (replace2 (slice l2 8 16))
  | 7 => parseFloat (replace2 (slice l2 17 25))
  | 8 => parseFloat ("." ++ slice l2 26 33)
  | 9 => parseFloat (replace2 (slice l2 34 42))
  | 10 => parseFloat (replace2 (slice l2 43 51))
  | _ => parseFloat (replace2 (slice l2 52 63))

/-- The field of the parsed record that field parse `i` populates. -/
def fieldValue (sat : Satellite) (i : Fin 12) : ℚ :=
  match i.val with
  | 0 => (sat.satnum : ℚ)
  | 1 => (sat.epochyr : ℚ)
  | 2 => sat.epochdays
  | 3 => sat.ndot
  | 4 => sat.nddot
  | 5 => sat.bstar
  | 6 => sat.inclo
  | 7 => sat.nodeo
  | 8 => sat.ecco
  | 9 => sat.argpo
  | 10 => sat.mo
  | _ => sat.no

/-- The column range named in `ParseTLE`'s error message for field `i`. -/
def fieldLabel (i : Fin 12) : String :=
  match i.val with
  | 0 => "line1[2:7]"
  | 1 => "line1[18:20]"
  | 2 => "line1[20:32]"
  | 3 => "line1[33:43]"
  | 4 => "line1[44:52]"
  | 5 => "line1[53:61]"
  | 6 => "line2[8:16]"
  | 7 => "line2[17:25]"
  | 8 => "line2[26:33]"
  | 9 => "line2[34:42]"
  | 10 => "line2[43:51]"
  | _ => "line2[52:63]"

/-- Whether field parse `i` succeeds. -/
def fieldOk (l1 l2 : String) (i : Fin 12) : Bool :=
  match fieldSrc l1 l2 i with
  | Except.ok _ => true
  | Except.error _ => false

/-- A reference TLE line pair (ISS, 2008), used as concrete witness input. -/
def issL1 : String := "1 25544U 98067A   08264.51782528 -.00002182  00000-0 -11606-4 0  2927"

/-- Second line of the reference TLE. -/
def issL2 : String := "2 25544  51.6416 247.4627 0006703 130.5360 325.0288 15.72125391563537"

/-- A 69-character line whose ndot columns `[33,43)` hold more than two
embedded spaces (`"1 1 1    5"`). -/
def spacedL1 : String :=
  "1 25544U 98067A   08264.51782528 1 1 1    5                          "

/-- The reference line 1 with a letter corrupting the ndot field. -/
def badL1 : String := "1 25544U 98067A   08264.51782528 -.0000X182  00000-0 -11606-4 0  2927"

/-! ## Helper lemmas about the field parses -/

/-- An `Except.map` over an integer parse is an error exactly when the parse is. -/
theorem map_eq_error {α β : Type} {f : α → β} {x : Except String α} {c : String}
    (h : x.map f = Except.error c) : x = Except.error c := by
  cases x with
  | error e => simp [Except.map] at h; rw [h]
  | ok a => simp [Except.map] at h

/-- An `Except.map` over an integer parse succeeds exactly when the parse does. -/
theorem map_ok_exists {α β : Type} {f : α → β} {x : Except String α} {v : β}
    (h : x.map f = Except.ok v) : ∃ n, x = Except.ok n := by
  cases x with
  | error e => simp [Except.map] at h
  | ok a => exact ⟨a, rfl⟩

/-- A succeeding field parse yields a value. -/
theorem exists_ok_of_fieldOk {l1 l2 : String} {i : Fin 12} (h : fieldOk l1 l2 i = true) :
    ∃ v, fieldSrc l1 l2 i = Except.ok v := by
  unfold fieldOk at h
  cases hv : fieldSrc l1 l2 i with
  | ok v => exact ⟨v, rfl⟩
  | error e => rw [hv] at h; simp at h

/-! ## Space-stripping in the ndot field (C2) -/

/-- When a character list holds at most `n` spaces,
`strings.Replace(·, " ", "", n)` deletes every space. -/
theorem removeSpaces_eq_filter :
    ∀ (l : List Char) (n : ℕ), l.count ' ' ≤ n →
      removeSpaces l n = l.filter (fun c => c != ' ')
  | [], n, _ => by simp [removeSpaces]
  | c :: cs, n, h => by
    by_cases hc : c = ' '
    · subst hc
      match n with
      | 0 =>
        exfalso
        simp [List.count_cons] at h
      | m + 1 =>
        have hcs : cs.count ' ' ≤ m := by
          simp [List.count_cons] at h
          omega
        simp [removeSpaces, removeSpaces_eq_filter cs m hcs]
    · have hcount : (c :: cs).count ' ' = cs.count ' ' := by
        simp [List.count_cons, Ne.symm hc]
      cases n with
      | zero =>
        have hcs : cs.count ' ' = 0 := by omega
        have hfil : cs.filter (fun c => c != ' ') = cs := by
          apply List.filter_eq_self.mpr
          intro a ha
          have hne : a ≠ ' ' := fun e => by
            subst e
            exact absurd ha (List.count_eq_zero.mp hcs)
          simp [hne]
        simp [removeSpaces, List.filter_cons, hc, hfil]
      | succ m =>
        have hcs : cs.count ' ' ≤ m + 1 := by omega
        simp [removeSpaces, hc, removeSpaces_eq_filter cs (m + 1) hcs]

/-- Mapping spaces to `'0'` is the identity on a space-free list. -/
theorem map_keep_of_no_space :
    ∀ l : List Char, l.count ' ' = 0 →
      l.map (fun c => if c = ' ' then '0' else c) = l
  | [], _ => rfl
  | c :: cs, h => by
    have hc : ¬ c = ' ' := by
      intro e
      subst e
      simp [List.count_cons] at h
    have hcs : cs.count ' ' = 0 := by
      have : (c :: cs).count ' ' = cs.count ' ' := by
        simp [List.count_cons, Ne.symm hc]
      omega
    simp [hc, map_keep_of_no_space cs hcs]

/-- Deleting spaces leaves no space behind. -/
theorem count_space_filter (l : List Char) :
    (l.filter (fun c => c != ' ')).count ' ' = 0 := by
  rw [List.count_eq_zero]
  intro hmem
  have hm := List.mem_filter.mp hmem
  simp at hm

/-- On a field with at most two embedded spaces, the repository's
space-handling (`Replace(·, " ", "", 2)` then space→`'0'`) coincides with
parsing the field with all spaces deleted. -/
theorem parseFloat_replace2 (s : String) (h : s.data.count ' ' ≤ 2) :
    parseFloat (replace2 s)
      = goParseFloat ((s.data.filter (fun c => c != ' ')).asString) := by
  unfold parseFloat replace2
  rw [removeSpaces_eq_filter s.data 2 h]
  have hdata : ((s.data.filter (fun c => c != ' ')).asString).data
      = s.data.filter (fun c => c != ' ') := rfl
  rw [hdata, map_keep_of_no_space _ (count_space_filter s.data)]

/-- C2 (amended): `ParseTLE` deletes at most the first two embedded spaces
of line-1 columns `[33,43)` before the numeric parse (any further spaces are
replaced by `'0'`); whenever the field holds at most two spaces — as in
every conforming TLE — the resulting `ndot` equals the float value of the
column substring with all spaces deleted. -/
theorem ParseTLE_ndot_spaces_stripped (l1 l2 g : String) (q : ℚ)
    (h1 : l1.length = 69) (h2 : l2.length = 69)
    (hg : (getGravConst g).2 = none)
    (f0 : fieldOk l1 l2 0 = true) (f1 : fieldOk l1 l2 1 = true)
    (f2 : fieldOk l1 l2 2 = true)
    (hsp : (slice l1 33 43).data.count ' ' ≤ 2)
    (hspec : ndotSpec l1 = Except.ok q) :
    (ParseTLE l1 l2 g).1.ndot = q := by
  have hL1 : ¬(l1.length ≠ 69) := by simp [h1]
  have hL2 : ¬(l2.length ≠ 69) := by simp [h2]
  rcases hgg : getGravConst g with ⟨gc, ge⟩
  rw [hgg] at hg
  replace hg : ge = none := hg
  subst hg
  obtain ⟨v0, hv0⟩ := exists_ok_of_fieldOk f0
  have hv0' : (parseInt (trimSpace (slice l1 2 7))).map (fun n : ℤ => (n : ℚ))
      = Except.ok v0 := hv0
  obtain ⟨n0, hp0⟩ := map_ok_exists hv0'
  obtain ⟨v1, hv1⟩ := exists_ok_of_fieldOk f1
  have hv1' : (parseInt (slice l1 18 20)).map (fun n : ℤ => (n : ℚ))
      = Except.ok v1 := hv1
  obtain ⟨n1, hp1⟩ := map_ok_exists hv1'
  obtain ⟨v2, hv2⟩ := exists_ok_of_fieldOk f2
  have hp2 : parseFloat (slice l1 20 32) = Except.ok v2 := hv2
  have hnd : parseFloat (replace2 (slice l1 33 43)) = Except.ok q := by
    rw [parseFloat_replace2 _ hsp]
    exact hspec
  unfold ParseTLE
  rw [if_neg hL1, if_neg hL2]
  simp only [hgg, hp0, hp1, hp2, hnd]
  rcases hv4 : parseFloat (replace2 (slice l1 44 45 ++ "." ++ slice l1 45 50
      ++ "e" ++ slice l1 50 52)) with e4 | v4 <;> simp only [hv4]
  rcases hv5 : parseFloat (replace2 (slice l1 53 54 ++ "." ++ slice l1 54 59
      ++ "e" ++ slice l1 59 61)) with e5 | v5 <;> simp only [hv5]
  rcases hv6 : parseFloat (replace2 (slice l2 8 16)) with e6 | v6 <;> simp only [hv6]
  rcases hv7 : parseFloat (replace2 (slice l2 17 25)) with e7 | v7 <;> simp only [hv7]
  rcases hv8 : parseFloat ("." ++ slice l2 26 33) with e8 | v8 <;> simp only [hv8]
  rcases hv9 : parseFloat (replace2 (slice l2 34 42)) with e9 | v9 <;> simp only [hv9]
  rcases hv10 : parseFloat (replace2 (slice l2 43 51)) with e10 | v10 <;> simp only [hv10]
  rcases hv11 : parseFloat (replace2 (slice l2 52 63)) with e11 | v11 <;> simp only [hv11]

/-- Witness for C2's amended theorem at the reference TLE (a field with no
embedded space), discharging every hypothesis concretely. -/
theorem ParseTLE_ndot_spaces_stripped_witness :
    (ParseTLE issL1 issL2 "wgs72").1.ndot = mkRat (-2182) 100000000 :=
  ParseTLE_ndot_spaces_stripped issL1 issL2 "wgs72" (mkRat (-2182) 100000000)
    (by decide) (by decide) rfl (by decide) (by decide) (by decide) (by decide) (by decide)

/-- Counterexample for C2 as stated: on a 69-character line pair whose ndot
columns `[33,43)` read `"1 1 1    5"` (six embedded spaces), `ParseTLE`
succeeds with `ndot = 11100005` — the first two spaces are deleted and the
remaining four are turned into zeros — whereas the value of the substring
with all spaces deleted is `1115`. -/
theorem ParseTLE_ndot_two_space_limit :
    (ParseTLE spacedL1 issL2 "wgs72").2 = none
    ∧ (ParseTLE spacedL1 issL2 "wgs72").1.ndot = 11100005
    ∧ ndotSpec spacedL1 = Except.ok 1115
    ∧ (11100005 : ℚ) ≠ 1115 := by
  refine ⟨by decide, by decide, by decide, by decide⟩

/-- C5: whenever a fixed-column field fails numeric parsing (all fields
before it in the parse order succeeding), `ParseTLE` aborts at that field:
the returned error names the field's column range with the underlying cause
chained, every field later in the parse order is left at its zero value in
the returned record, and the call carries a non-`nil` error, so no usable
record is produced. -/
theorem ParseTLE_first_error (l1 l2 g c : String) (k j : Fin 12)
    (h1 : l1.length = 69) (h2 : l2.length = 69)
    (hg : (getGravConst g).2 = none)
    (hok : ∀ i : Fin 12, i < k → fieldOk l1 l2 i = true)
    (hf : fieldSrc l1 l2 k = Except.error c) (hkj : k < j) :
    (ParseTLE l1 l2 g).2 = some ("Error on parsing " ++ fieldLabel k ++ ": " ++ c)
    ∧ fieldValue (ParseTLE l1 l2 g).1 j = 0 := by
  have hL1 : ¬(l1.length ≠ 69) := by simp [h1]
  have hL2 : ¬(l2.length ≠ 69) := by simp [h2]
  rcases hgg : getGravConst g with ⟨gc, ge⟩
  rw [hgg] at hg
  replace hg : ge = none := hg
  subst hg
  unfold ParseTLE
  rw [if_neg hL1, if_neg hL2]
  fin_cases k
  · -- field 0 fails first
    have hfm : (parseInt (trimSpace (slice l1 2 7))).map (fun n : ℤ => (n : ℚ))
        = Except.error c := hf
    have hpk : parseInt (trimSpace (slice l1 2 7)) = Except.error c := map_eq_error hfm
    simp only [hgg, hpk]
    refine ⟨rfl, ?_⟩
    fin_cases j <;> first
      | exact absurd hkj (by decide)
      | rfl
  · -- field 1 fails first
    obtain ⟨w0, hw0⟩ := exists_ok_of_fieldOk (hok 0 (by decide))
    have hww0 : (parseInt (trimSpace (slice l1 2 7))).map (fun n : ℤ => (n : ℚ))
        = Except.ok w0 := hw0
    obtain ⟨m0, hp0⟩ := map_ok_exists hww0
    have hfm : (parseInt (slice l1 18 20)).map (fun n : ℤ => (n : ℚ))
        = Except.error c := hf
    have hpk : parseInt (slice l1 18 20) = Except.error c := map_eq_error hfm
    simp only [hgg, hp0, hpk]
    refine ⟨rfl, ?_⟩
    fin_cases j <;> first
      | exact absurd hkj (by decide)
      | rfl
  · -- field 2 fails first
    obtain ⟨w0, hw0⟩ := exists_ok_of_fieldOk (hok 0 (by decide))
    have hww0 : (parseInt (trimSpace (slice l1 2 7))).map (fun n : ℤ => (n : ℚ))
        = Except.ok w0 := hw0
    obtain ⟨m0, hp0⟩ := map_ok_exists hww0
    obtain ⟨w1, hw1⟩ := exists_ok_of_fieldOk (hok 1 (by decide))
    have hww1 : (parseInt (slice l1 18 20)).map (fun n : ℤ => (n : ℚ))
        = Except.ok w1 := hw1
    obtain ⟨m1, hp1⟩ := map_ok_exists hww1
    have hpk : parseFloat (slice l1 20 32) = Except.error c := hf
    simp only [hgg, hp0, hp1, hpk]
    refine ⟨rfl, ?_⟩
    fin_cases j <;> first
      | exact absurd hkj (by decide)
      | rfl
  · -- field 3 fails first
    obtain ⟨w0, hw0⟩ := exists_ok_of_fieldOk (hok 0 (by decide))
    have hww0 : (parseInt (trimSpace (slice l1 2 7))).map (fun n : ℤ => (n : ℚ))
        = Except.ok w0 := hw0
    obtain ⟨m0, hp0⟩ := map_ok_exists hww0
    obtain ⟨w1, hw1⟩ := exists_ok_of_fieldOk (hok 1 (by decide))
    have hww1 : (parseInt (slice l1 18 20)).map (fun n : ℤ => (n : ℚ))
        = Except.ok w1 := hw1
    obtain ⟨m1, hp1⟩ := map_ok_exists hww1
    obtain ⟨w2, hw2⟩ := exists_ok_of_fieldOk (hok 2 (by decide))
    have hp2 : parseFloat (slice l1 20 32) = Except.ok w2 := hw2
    have hpk : parseFloat (replace2 (slice l1 33 43)) = Except.error c := hf
    simp only [hgg, hp0, hp1, hp2, hpk]
    refine ⟨rfl, ?_⟩
    fin_cases j <;> first
      | exact absurd hkj (by decide)
      | rfl
  · -- field 4 fails first
    obtain ⟨w0, hw0⟩ := exists_ok_of_fieldOk (hok 0 (by decide))
    have hww0 : (parseInt (trimSpace (slice l1 2 7))).map (fun n : ℤ => (n : ℚ))
        = Except.ok w0 := hw0
    obtain ⟨m0, hp0⟩ := map_ok_exists hww0
    obtain ⟨w1, hw1⟩ := exists_ok_of_fieldOk (hok 1 (by decide))
    have hww1 : (parseInt (slice l1 18 20)).map (fun n : ℤ => (n : ℚ))
        = Except.ok w1 := hw1
    obtain ⟨m1, hp1⟩ := map_ok_exists hww1
    obtain ⟨w2, hw2⟩ := exists_ok_of_fieldOk (hok 2 (by decide))
    have hp2 : parseFloat (slice l1 20 32) = Except.ok w2 := hw2
    obtain ⟨w3, hw3⟩ := exists_ok_of_fieldOk (hok 3 (by decide))
    have hp3 : parseFloat (replace2 (slice l1 33 43)) = Except.ok w3 := hw3
    have hpk : parseFloat (replace2 (slice l1 44 45 ++ "." ++ slice l1 45 50 ++ "e" ++ slice l1 50 52)) = Except.error c := hf
    simp only [hgg, hp0, hp1, hp2, hp3, hpk]
    refine ⟨rfl, ?_⟩
    fin_cases j <;> first
      | exact absurd hkj (by decide)
      | rfl
  · -- field 5 fails first
    obtain ⟨w0, hw0⟩ := exists_ok_of_fieldOk (hok 0 (by decide))
    have hww0 : (parseInt (trimSpace (slice l1 2 7))).map (fun n : ℤ => (n : ℚ))
        = Except.ok w0 := hw0
    obtain ⟨m0, hp0⟩ := map_ok_exists hww0
    obtain ⟨w1, hw1⟩ := exists_ok_of_fieldOk (hok 1 (by decide))
    have hww1 : (parseInt (slice l1 18 20)).map (fun n : ℤ => (n : ℚ))
        = Except.ok w1 := hw1
    obtain ⟨m1, hp1⟩ := map_ok_exists hww1
    obtain ⟨w2, hw2⟩ := exists_ok_of_fieldOk (hok 2 (by decide))
    have hp2 : parseFloat (slice l1 20 32) = Except.ok w2 := hw2
    obtain ⟨w3, hw3⟩ := exists_ok_of_fieldOk (hok 3 (by decide))
    have hp3 : parseFloat (replace2 (slice l1 33 43)) = Except.ok w3 := hw3
    obtain ⟨w4, hw4⟩ := exists_ok_of_fieldOk (hok 4 (by decide))
    have hp4 : parseFloat (replace2 (slice l1 44 45 ++ "." ++ slice l1 45 50 ++ "e" ++ slice l1 50 52)) = Except.ok w4 := hw4
    have hpk : parseFloat (replace2 (slice l1 53 54 ++ "." ++ slice l1 54 59 ++ "e" ++ slice l1 59 61)) = Except.error c := hf
    simp only [hgg, hp0, hp1, hp2, hp3, hp4, hpk]
    refine ⟨rfl, ?_⟩
    fin_cases j <;> first
      | exact absurd hkj (by decide)
      | rfl
  · -- field 6 fails first
    obtain ⟨w0, hw0⟩ := exists_ok_of_fieldOk (hok 0 (by decide))
    have hww0 : (parseInt (trimSpace (slice l1 2 7))).map (fun n : ℤ => (n : ℚ))
        = Except.ok w0 := hw0
    obtain ⟨m0, hp0⟩ := map_ok_exists hww0
    obtain ⟨w1, hw1⟩ := exists_ok_of_fieldOk (hok 1 (by decide))
    have hww1 : (parseInt (slice l1 18 20)).map (fun n : ℤ => (n : ℚ))
        = Except.ok w1 := hw1
    obtain ⟨m1, hp1⟩ := map_ok_exists hww1
    obtain ⟨w2, hw2⟩ := exists_ok_of_fieldOk (hok 2 (by decide))
    have hp2 : parseFloat (slice l1 20 32) = Except.ok w2 := hw2
    obtain ⟨w3, hw3⟩ := exists_ok_of_fieldOk (hok 3 (by decide))
    have hp3 : parseFloat (replace2 (slice l1 33 43)) = Except.ok w3 := hw3
    obtain ⟨w4, hw4⟩ := exists_ok_of_fieldOk (hok 4 (by decide))
    have hp4 : parseFloat (replace2 (slice l1 44 45 ++ "." ++ slice l1 45 50 ++ "e" ++ slice l1 50 52)) = Except.ok w4 := hw4
    obtain ⟨w5, hw5⟩ := exists_ok_of_fieldOk (hok 5 (by decide))
    have hp5 : parseFloat (replace2 (slice l1 53 54 ++ "." ++ slice l1 54 59 ++ "e" ++ slice l1 59 61)) = Except.ok w5 := hw5
    have hpk : parseFloat (replace2 (slice l2 8 16)) = Except.error c := hf
    simp only [hgg, hp0, hp1, hp2, hp3, hp4, hp5, hpk]
    refine ⟨rfl, ?_⟩
    fin_cases j <;> first
      | exact absurd hkj (by decide)
      | rfl
  · -- field 7 fails first
    obtain ⟨w0, hw0⟩ := exists_ok_of_fieldOk (hok 0 (by decide))
    have hww0 : (parseInt (trimSpace (slice l1 2 7))).map (fun n : ℤ => (n : ℚ))
        = Except.ok w0 := hw0
    obtain ⟨m0, hp0⟩ := map_ok_exists hww0
    obtain ⟨w1, hw1⟩ := exists_ok_of_fieldOk (hok 1 (by decide))
    have hww1 : (parseInt (slice l1 18 20)).map (fun n : ℤ => (n : ℚ))
        = Except.ok w1 := hw1
    obtain ⟨m1, hp1⟩ := map_ok_exists hww1
    obtain ⟨w2, hw2⟩ := exists_ok_of_fieldOk (hok 2 (by decide))
    have hp2 : parseFloat (slice l1 20 32) = Except.ok w2 := hw2
    obtain ⟨w3, hw3⟩ := exists_ok_of_fieldOk (hok 3 (by decide))
    have hp3 : parseFloat (replace2 (slice l1 33 43)) = Except.ok w3 := hw3
    obtain ⟨w4, hw4⟩ := exists_ok_of_fieldOk (hok 4 (by decide))
    have hp4 : parseFloat (replace2 (slice l1 44 45 ++ "." ++ slice l1 45 50 ++ "e" ++ slice l1 50 52)) = Except.ok w4 := hw4
    obtain ⟨w5, hw5⟩ := exists_ok_of_fieldOk (hok 5 (by decide))
    have hp5 : parseFloat (replace2 (slice l1 53 54 ++ "." ++ slice l1 54 59 ++ "e" ++ slice l1 59 61)) = Except.ok w5 := hw5
    obtain ⟨w6, hw6⟩ := exists_ok_of_fieldOk (hok 6 (by decide))
    have hp6 : parseFloat (replace2 (slice l2 8 16)) = Except.ok w6 := hw6
    have hpk : parseFloat (replace2 (slice l2 17 25)) = Except.error c := hf
    simp only [hgg, hp0, hp1, hp2, hp3, hp4, hp5, hp6, hpk]
    refine ⟨rfl, ?_⟩
    fin_cases j <;> first
      | exact absurd hkj (by decide)
      | rfl
  · -- field 8 fails first
    obtain ⟨w0, hw0⟩ := exists_ok_of_fieldOk (hok 0 (by decide))
    have hww0 : (parseInt (trimSpace (slice l1 2 7))).map (fun n : ℤ => (n : ℚ))
        = Except.ok w0 := hw0
    obtain ⟨m0, hp0⟩ := map_ok_exists hww0
    obtain ⟨w1, hw1⟩ := exists_ok_of_fieldOk (hok 1 (by decide))
    have hww1 : (parseInt (slice l1 18 20)).map (fun n : ℤ => (n : ℚ))
        = Except.ok w1 := hw1
    obtain ⟨m1, hp1⟩ := map_ok_exists hww1
    obtain ⟨w2, hw2⟩ := exists_ok_of_fieldOk (hok 2 (by decide))
    have hp2 : parseFloat (slice l1 20 32) = Except.ok w2 := hw2
    obtain ⟨w3, hw3⟩ := exists_ok_of_fieldOk (hok 3 (by decide))
    have hp3 : parseFloat (replace2 (slice l1 33 43)) = Except.ok w3 := hw3
    obtain ⟨w4, hw4⟩ := exists_ok_of_fieldOk (hok 4 (by decide))
    have hp4 : parseFloat (replace2 (slice l1 44 45 ++ "." ++ slice l1 45 50 ++ "e" ++ slice l1 50 52)) = Except.ok w4 := hw4
    obtain ⟨w5, hw5⟩ := exists_ok_of_fieldOk (hok 5 (by decide))
    have hp5 : parseFloat (replace2 (slice l1 53 54 ++ "." ++ slice l1 54 59 ++ "e" ++ slice l1 59 61)) = Except.ok w5 := hw5
    obtain ⟨w6, hw6⟩ := exists_ok_of_fieldOk (hok 6 (by decide))
    have hp6 : parseFloat (replace2 (slice l2 8 16)) = Except.ok w6 := hw6
    obtain ⟨w7, hw7⟩ := exists_ok_of_fieldOk (hok 7 (by decide))
    have hp7 : parseFloat (replace2 (slice l2 17 25)) = Except.ok w7 := hw7
    have hpk : parseFloat ("." ++ slice l2 26 33) = Except.error c := hf
    simp only [hgg, hp0, hp1, hp2, hp3, hp4, hp5, hp6, hp7, hpk]
    refine ⟨rfl, ?_⟩
    fin_cases j <;> first
      | exact absurd hkj (by decide)
      | rfl
  · -- field 9 fails first
    obtain ⟨w0, hw0⟩ := exists_ok_of_fieldOk (hok 0 (by decide))
    have hww0 : (parseInt (trimSpace (slice l1 2 7))).map (fun n : ℤ => (n : ℚ))
        = Except.ok w0 := hw0
    obtain ⟨m0, hp0⟩ := map_ok_exists hww0
    obtain ⟨w1, hw1⟩ := exists_ok_of_fieldOk (hok 1 (by decide))
    have hww1 : (parseInt (slice l1 18 20)).map (fun n : ℤ => (n : ℚ))
        = Except.ok w1 := hw1
    obtain ⟨m1, hp1⟩ := map_ok_exists hww1
    obtain ⟨w2, hw2⟩ := exists_ok_of_fieldOk (hok 2 (by decide))
    have hp2 : parseFloat (slice l1 20 32) = Except.ok w2 := hw2
    obtain ⟨w3, hw3⟩ := exists_ok_of_fieldOk (hok 3 (by decide))
    have hp3 : parseFloat (replace2 (slice l1 33 43)) = Except.ok w3 := hw3
    obtain ⟨w4, hw4⟩ := exists_ok_of_fieldOk (hok 4 (by decide))
    have hp4 : parseFloat (replace2 (slice l1 44 45 ++ "." ++ slice l1 45 50 ++ "e" ++ slice l1 50 52)) = Except.ok w4 := hw4
    obtain ⟨w5, hw5⟩ := exists_ok_of_fieldOk (hok 5 (by decide))
    have hp5 : parseFloat (replace2 (slice l1 53 54 ++ "." ++ slice l1 54 59 ++ "e" ++ slice l1 59 61)) = Except.ok w5 := hw5
    obtain ⟨w6, hw6⟩ := exists_ok_of_fieldOk (hok 6 (by decide))
    have hp6 : parseFloat (replace2 (slice l2 8 16)) = Except.ok w6 := hw6
    obtain ⟨w7, hw7⟩ := exists_ok_of_fieldOk (hok 7 (by decide))
    have hp7 : parseFloat (replace2 (slice l2 17 25)) = Except.ok w7 := hw7
    obtain ⟨w8, hw8⟩ := exists_ok_of_fieldOk (hok 8 (by decide))
    have hp8 : parseFloat ("." ++ slice l2 26 33) = Except.ok w8 := hw8
    have hpk : parseFloat (replace2 (slice l2 34 42)) = Except.error c := hf
    simp only [hgg, hp0, hp1, hp2, hp3, hp4, hp5, hp6, hp7, hp8, hpk]
    refine ⟨rfl, ?_⟩
    fin_cases j <;> first
      | exact absurd hkj (by decide)
      | rfl
  · -- field 10 fails first
    obtain ⟨w0, hw0⟩ := exists_ok_of_fieldOk (hok 0 (by decide))
    have hww0 : (parseInt (trimSpace (slice l1 2 7))).map (fun n : ℤ => (n : ℚ))
        = Except.ok w0 := hw0
    obtain ⟨m0, hp0⟩ := map_ok_exists hww0
    obtain ⟨w1, hw1⟩ := exists_ok_of_fieldOk (hok 1 (by decide))
    have hww1 : (parseInt (slice l1 18 20)).map (fun n : ℤ => (n : ℚ))
        = Except.ok w1 := hw1
    obtain ⟨m1, hp1⟩ := map_ok_exists hww1
    obtain ⟨w2, hw2⟩ := exists_ok_of_fieldOk (hok 2 (by decide))
    have hp2 : parseFloat (slice l1 20 32) = Except.ok w2 := hw2
    obtain ⟨w3, hw3⟩ := exists_ok_of_fieldOk (hok 3 (by decide))
    have hp3 : parseFloat (replace2 (slice l1 33 43)) = Except.ok w3 := hw3
    obtain ⟨w4, hw4⟩ := exists_ok_of_fieldOk (hok 4 (by decide))
    have hp4 : parseFloat (replace2 (slice l1 44 45 ++ "." ++ slice l1 45 50 ++ "e" ++ slice l1 50 52)) = Except.ok w4 := hw4
    obtain ⟨w5, hw5⟩ := exists_ok_of_fieldOk (hok 5 (by decide))
    have hp5 : parseFloat (replace2 (slice l1 53 54 ++ "." ++ slice l1 54 59 ++ "e" ++ slice l1 59 61)) = Except.ok w5 := hw5
    obtain ⟨w6, hw6⟩ := exists_ok_of_fieldOk (hok 6 (by decide))
    have hp6 : parseFloat (replace2 (slice l2 8 16)) = Except.ok w6 := hw6
    obtain ⟨w7, hw7⟩ := exists_ok_of_fieldOk (hok 7 (by decide))
    have hp7 : parseFloat (replace2 (slice l2 17 25)) = Except.ok w7 := hw7
    obtain ⟨w8, hw8⟩ := exists_ok_of_fieldOk (hok 8 (by decide))
    have hp8 : parseFloat ("." ++ slice l2 26 33) = Except.ok w8 := hw8
    obtain ⟨w9, hw9⟩ := exists_ok_of_fieldOk (hok 9 (by decide))
    have hp9 : parseFloat (replace2 (slice l2 34 42)) = Except.ok w9 := hw9
    have hpk : parseFloat (replace2 (slice l2 43 51)) = Except.error c := hf
    simp only [hgg, hp0, hp1, hp2, hp3, hp4, hp5, hp6, hp7, hp8, hp9, hpk]
    refine ⟨rfl, ?_⟩
    fin_cases j <;> first
      | exact absurd hkj (by decide)
      | rfl
  · -- field 11 fails first
    obtain ⟨w0, hw0⟩ := exists_ok_of_fieldOk (hok 0 (by decide))
    have hww0 : (parseInt (trimSpace (slice l1 2 7))).map (fun n : ℤ => (n : ℚ))
        = Except.ok w0 := hw0
    obtain ⟨m0, hp0⟩ := map_ok_exists hww0
    obtain ⟨w1, hw1⟩ := exists_ok_of_fieldOk (hok 1 (by decide))
    have hww1 : (parseInt (slice l1 18 20)).map (fun n : ℤ => (n : ℚ))
        = Except.ok w1 := hw1
    obtain ⟨m1, hp1⟩ := map_ok_exists hww1
    obtain ⟨w2, hw2⟩ := exists_ok_of_fieldOk (hok 2 (by decide))
    have hp2 : parseFloat (slice l1 20 32) = Except.ok w2 := hw2
    obtain ⟨w3, hw3⟩ := exists_ok_of_fieldOk (hok 3 (by decide))
    have hp3 : parseFloat (replace2 (slice l1 33 43)) = Except.ok w3 := hw3
    obtain ⟨w4, hw4⟩ := exists_ok_of_fieldOk (hok 4 (by decide))
    have hp4 : parseFloat (replace2 (slice l1 44 45 ++ "." ++ slice l1 45 50 ++ "e" ++ slice l1 50 52)) = Except.ok w4 := hw4
    obtain ⟨w5, hw5⟩ := exists_ok_of_fieldOk (hok 5 (by decide))
    have hp5 : parseFloat (replace2 (slice l1 53 54 ++ "." ++ slice l1 54 59 ++ "e" ++ slice l1 59 61)) = Except.ok w5 := hw5
    obtain ⟨w6, hw6⟩ := exists_ok_of_fieldOk (hok 6 (by decide))
    have hp6 : parseFloat (replace2 (slice l2 8 16)) = Except.ok w6 := hw6
    obtain ⟨w7, hw7⟩ := exists_ok_of_fieldOk (hok 7 (by decide))
    have hp7 : parseFloat (replace2 (slice l2 17 25)) = Except.ok w7 := hw7
    obtain ⟨w8, hw8⟩ := exists_ok_of_fieldOk (hok 8 (by decide))
    have hp8 : parseFloat ("." ++ slice l2 26 33) = Except.ok w8 := hw8
    obtain ⟨w9, hw9⟩ := exists_ok_of_fieldOk (hok 9 (by decide))
    have hp9 : parseFloat (replace2 (slice l2 34 42)) = Except.ok w9 := hw9
    obtain ⟨w10, hw10⟩ := exists_ok_of_fieldOk (hok 10 (by decide))
    have hp10 : parseFloat (replace2 (slice l2 43 51)) = Except.ok w10 := hw10
    have hpk : parseFloat (replace2 (slice l2 52 63)) = Except.error c := hf
    simp only [hgg, hp0, hp1, hp2, hp3, hp4, hp5, hp6, hp7, hp8, hp9, hp10, hpk]
    refine ⟨rfl, ?_⟩
    fin_cases j <;> exact absurd hkj (by decide)

/-- Witness for C5: the corrupted ndot field of `badL1` is the first
failure; the error names columns `[33,43)` with the `strconv` cause chained,
and the mean motion (the last field in parse order) is left zero. -/
theorem ParseTLE_first_error_witness :
    (ParseTLE badL1 issL2 "wgs72").2
      = some ("Error on parsing " ++ fieldLabel 3 ++ ": " ++ floatErrMsg "-.0000X182")
    ∧ fieldValue (ParseTLE badL1 issL2 "wgs72").1 11 = 0 :=
  ParseTLE_first_error badL1 issL2 "wgs72" (floatErrMsg "-.0000X182") 3 11
    (by decide) (by decide) rfl (by decide) (by decide) (by decide)

end satellite
